import Mathlib

/-!
Shallow embedding of `legion_laptop_16irx9.c` (Legion Slim 7i Gen 9 laptop
driver) and verification of its specification.

The driver talks to an embedded controller (EC) through a command port and a
data port.  We embed:

* the transport layer: `ec_wait` (bounded busy-poll of the status byte),
  `ec_read` and `ec_write` (mutex-guarded multi-step handshakes);
* the register-semantics layer: the sysfs store/show handlers, the hwmon
  read callback, and the probe-time initialization writes.

Hardware is modelled explicitly:

* the EC register file is a function `Nat → Nat` (bytes, clamped with `% 256`
  at the `u8` boundaries);
* the status byte observed by the `k`-th poll of one `ec_wait` call is given
  by a status stream `Nat → Nat`; a whole transaction receives one stream per
  `ec_wait` call (`Nat → Nat → Nat`), so every wait can independently succeed
  or time out;
* port and lock activity is recorded as an explicit event list so that
  locking discipline and "no hardware access" claims are statements about
  the produced trace.

Machine integers are `Nat`/`Int` with explicit `% 256` where the C type is
`u8`; error returns are negative `Int` values exactly as in the kernel ABI.
-/

/-- Linux errno `ETIMEDOUT` (the driver returns `-ETIMEDOUT`). -/
def ETIMEDOUT : Int := 110

/-- Linux errno `EINVAL` (the driver returns `-EINVAL`). -/
def EINVAL : Int := 22

/-- Linux errno `EOPNOTSUPP` (the driver returns `-EOPNOTSUPP`). -/
def EOPNOTSUPP : Int := 95

/-- `EC_PORT_CMD` from the source (`0x66`). -/
def EC_PORT_CMD : Nat := 0x66

/-- `EC_PORT_DATA` from the source (`0x62`). -/
def EC_PORT_DATA : Nat := 0x62

/-- Loop body of `ec_wait`: `i` is the current poll index into the status
stream `stat`, the fuel counts the remaining iterations of the C `for` loop
(`for (i = 0; i < 1000; i++)`).  Returns the C return value together with the
number of `inb(EC_PORT_CMD)` polls performed.  Each busy iteration is
followed by `udelay(10)` in the source; real time is not modelled, only the
poll count. -/
def ecWaitAux (stat : Nat → Nat) : Nat → Nat → Int × Nat
  | _, 0 => (-ETIMEDOUT, 0)
  | i, n + 1 =>
    if stat i &&& 0x02 == 0 then (0, 1)
    else
      let r := ecWaitAux stat (i + 1) n
      (r.1, r.2 + 1)

/-- `ec_wait` from the source: poll bit 1 of the command-status byte up to
1000 times; return `0` as soon as it is clear, `-ETIMEDOUT` otherwise. -/
def ec_wait (stat : Nat → Nat) : Int :=
  (ecWaitAux stat 0 1000).1

/-- Number of status polls (`inb(EC_PORT_CMD)` executions) a call
`ec_wait stat` performs. -/
def ec_wait_polls (stat : Nat → Nat) : Nat :=
  (ecWaitAux stat 0 1000).2

/-- Port/lock events emitted by one transport transaction. -/
inductive Ev where
  | lock : Ev
  | unlock : Ev
  | outb (port v : Nat) : Ev
  | inb (port : Nat) : Ev
  deriving DecidableEq, Repr

/-- Result of `ec_read`: the event trace, the C return value, and the byte
stored through `*value` (`none` when the read failed, since the source never
assigns `*value` on a failure path). -/
structure ReadOut where
  events : List Ev
  ret : Int
  value : Option Nat
  deriving Repr

/-- Point update of the register file. -/
def setReg (regs : Nat → Nat) (r v : Nat) : Nat → Nat :=
  fun x => if x = r then v else regs x

/-- `ec_read` from the source.  `env k` is the status stream seen by the
`k`-th `ec_wait` call of this transaction.  The C function takes `u8 reg`,
hence `reg % 256`; `inb` yields a byte, hence `% 256` on the value.  The
mutex is acquired at entry and released at the shared `out:` label on every
path. -/
def ec_read (env : Nat → Nat → Nat) (regs : Nat → Nat) (reg : Nat) : ReadOut :=
  let r0 := ec_wait (env 0)
  if r0 ≠ 0 then ⟨[.lock, .unlock], r0, none⟩
  else
    let r1 := ec_wait (env 1)
    if r1 ≠ 0 then ⟨[.lock, .outb EC_PORT_CMD 0x80, .unlock], r1, none⟩
    else
      let r2 := ec_wait (env 2)
      if r2 ≠ 0 then
        ⟨[.lock, .outb EC_PORT_CMD 0x80, .outb EC_PORT_DATA (reg % 256), .unlock], r2, none⟩
      else
        ⟨[.lock, .outb EC_PORT_CMD 0x80, .outb EC_PORT_DATA (reg % 256),
          .inb EC_PORT_DATA, .unlock], r2, some (regs (reg % 256) % 256)⟩

/-- Result of `ec_write`: event trace, C return value, and the register file
after the transaction. -/
structure WriteOut where
  events : List Ev
  ret : Int
  regs : Nat → Nat

/-- `ec_write` from the source.  Four `ec_wait` points; the data byte is sent
before the final wait, so on a final-wait timeout the register has already
been written while the call still returns `-ETIMEDOUT`.  The mutex is
released at the `out:` label on every path. -/
def ec_write (env : Nat → Nat → Nat) (regs : Nat → Nat) (reg v : Nat) : WriteOut :=
  let r0 := ec_wait (env 0)
  if r0 ≠ 0 then ⟨[.lock, .unlock], r0, regs⟩
  else
    let r1 := ec_wait (env 1)
    if r1 ≠ 0 then ⟨[.lock, .outb EC_PORT_CMD 0x81, .unlock], r1, regs⟩
    else
      let r2 := ec_wait (env 2)
      if r2 ≠ 0 then
        ⟨[.lock, .outb EC_PORT_CMD 0x81, .outb EC_PORT_DATA (reg % 256), .unlock], r2, regs⟩
      else
        let r3 := ec_wait (env 3)
        ⟨[.lock, .outb EC_PORT_CMD 0x81, .outb EC_PORT_DATA (reg % 256),
          .outb EC_PORT_DATA (v % 256), .unlock], r3,
          setReg regs (reg % 256) (v % 256)⟩

/-- A status stream that is always busy (bit 1 set): every poll sees `0x02`. -/
def busyStat : Nat → Nat := fun _ => 0x02

/-- A status stream that is always ready: every poll sees `0`. -/
def readyStat : Nat → Nat := fun _ => 0

/-- Transaction environment in which every `ec_wait` succeeds at once. -/
def readyEnv : Nat → Nat → Nat := fun _ => readyStat

/-- Transaction environment in which every `ec_wait` times out. -/
def busyEnv : Nat → Nat → Nat := fun _ => busyStat

-- Basic facts about the wait loop.

theorem ecWaitAux_fst (stat : Nat → Nat) :
    ∀ n i, (ecWaitAux stat i n).1 = 0 ∨ (ecWaitAux stat i n).1 = -ETIMEDOUT := by
  intro n
  induction n with
  | zero => intro i; right; rfl
  | succ n ih =>
    intro i
    by_cases h : stat i &&& 0x02 == 0
    · left; simp [ecWaitAux, h]
    · have := ih (i + 1)
      simpa [ecWaitAux, h] using this

theorem ec_wait_cases (stat : Nat → Nat) :
    ec_wait stat = 0 ∨ ec_wait stat = -ETIMEDOUT :=
  ecWaitAux_fst stat 1000 0

theorem ecWaitAux_polls_le (stat : Nat → Nat) :
    ∀ n i, (ecWaitAux stat i n).2 ≤ n := by
  intro n
  induction n with
  | zero => intro i; simp [ecWaitAux]
  | succ n ih =>
    intro i
    by_cases h : stat i &&& 0x02 == 0
    · simp [ecWaitAux, h]
    · have := ih (i + 1)
      simp [ecWaitAux, h]
      omega

theorem ecWaitAux_busy (stat : Nat → Nat) :
    ∀ n i, (∀ j, j < n → stat (i + j) &&& 0x02 ≠ 0) →
      ecWaitAux stat i n = (-ETIMEDOUT, n) := by
  intro n
  induction n with
  | zero => intro i _; rfl
  | succ n ih =>
    intro i hbusy
    have h0 : stat i &&& 0x02 ≠ 0 := by
      have := hbusy 0 (Nat.succ_pos n)
      simpa using this
    have hrest : ∀ j, j < n → stat (i + 1 + j) &&& 0x02 ≠ 0 := by
      intro j hj
      have := hbusy (j + 1) (by omega)
      have harr : i + (j + 1) = i + 1 + j := by omega
      rwa [harr] at this
    have h0b : ¬ (stat i &&& 0x02 == 0) := by simpa using h0
    simp [ecWaitAux, h0b, ih (i + 1) hrest]

theorem ecWaitAux_clear (stat : Nat → Nat) :
    ∀ n i k, k < n → stat (i + k) &&& 0x02 = 0 →
      (∀ j, j < k → stat (i + j) &&& 0x02 ≠ 0) →
      ecWaitAux stat i n = (0, k + 1) := by
  intro n
  induction n with
  | zero => intro i k hk; omega
  | succ n ih =>
    intro i k hk hclear hbusy
    cases k with
    | zero =>
      have h0 : stat i &&& 0x02 == 0 := by simpa using hclear
      simp [ecWaitAux, h0]
    | succ k =>
      have h0 : stat i &&& 0x02 ≠ 0 := by
        have := hbusy 0 (Nat.succ_pos k)
        simpa using this
      have h0b : ¬ (stat i &&& 0x02 == 0) := by simpa using h0
      have hclear' : stat (i + 1 + k) &&& 0x02 = 0 := by
        have harr : i + (k + 1) = i + 1 + k := by omega
        rwa [harr] at hclear
      have hbusy' : ∀ j, j < k → stat (i + 1 + j) &&& 0x02 ≠ 0 := by
        intro j hj
        have := hbusy (j + 1) (by omega)
        have harr : i + (j + 1) = i + 1 + j := by omega
        rwa [harr] at this
      have := ih (i + 1) k (by omega) hclear' hbusy'
      simp [ecWaitAux, h0b, this]

theorem ec_wait_busy_all (stat : Nat → Nat)
    (h : ∀ i, i < 1000 → stat i &&& 0x02 ≠ 0) :
    ec_wait stat = -ETIMEDOUT ∧ ec_wait_polls stat = 1000 := by
  have := ecWaitAux_busy stat 1000 0 (by intro j hj; simpa using h j hj)
  constructor
  · simp [ec_wait, this]
  · simp [ec_wait_polls, this]

theorem ec_wait_busyStat : ec_wait busyStat = -ETIMEDOUT :=
  (ec_wait_busy_all busyStat (by intro i _; simp [busyStat])).1

theorem ec_wait_readyStat : ec_wait readyStat = 0 := by
  have := ecWaitAux_clear readyStat 1000 0 0 (by omega)
    (by simp [readyStat]) (by intro j hj; omega)
  simp [ec_wait, this]

-- Register constants from `enum gen9_ec_registers`.

/-- `EC_REG_PERFORMANCE_MODE = 0xA0`. -/
def EC_REG_PERFORMANCE_MODE : Nat := 0xA0

/-- `EC_REG_FAN1_SPEED = 0xB0`. -/
def EC_REG_FAN1_SPEED : Nat := 0xB0

/-- `EC_REG_FAN2_SPEED = 0xB1`. -/
def EC_REG_FAN2_SPEED : Nat := 0xB1

/-- `EC_REG_FAN1_TARGET = 0xB2`. -/
def EC_REG_FAN1_TARGET : Nat := 0xB2

/-- `EC_REG_FAN2_TARGET = 0xB3`. -/
def EC_REG_FAN2_TARGET : Nat := 0xB3

/-- `EC_REG_CPU_PL1 = 0xC0`. -/
def EC_REG_CPU_PL1 : Nat := 0xC0

/-- `EC_REG_CPU_PL2 = 0xC1`. -/
def EC_REG_CPU_PL2 : Nat := 0xC1

/-- `EC_REG_GPU_TGP = 0xC4`. -/
def EC_REG_GPU_TGP : Nat := 0xC4

/-- `EC_REG_CPU_TEMP = 0xE0`. -/
def EC_REG_CPU_TEMP : Nat := 0xE0

/-- `EC_REG_GPU_TEMP = 0xE2`. -/
def EC_REG_GPU_TEMP : Nat := 0xE2

/-- `EC_REG_GPU_HOTSPOT = 0xE3`. -/
def EC_REG_GPU_HOTSPOT : Nat := 0xE3

/-- `EC_REG_VRM_TEMP = 0xE5`. -/
def EC_REG_VRM_TEMP : Nat := 0xE5

/-- `EC_REG_SSD_TEMP = 0xE6`. -/
def EC_REG_SSD_TEMP : Nat := 0xE6

/-- `EC_REG_RGB_MODE = 0xF0`. -/
def EC_REG_RGB_MODE : Nat := 0xF0

/-- `EC_REG_RGB_BRIGHTNESS = 0xF1`. -/
def EC_REG_RGB_BRIGHTNESS : Nat := 0xF1

/-- Driver-visible state: the EC register file (hardware ground truth) plus
the cached fields of `struct legion_laptop` (`performance_mode`,
`fan1_speed`, `fan2_speed`, `cpu_temp`, `gpu_temp`). -/
structure Sys where
  regs : Nat → Nat
  performance_mode : Nat
  fan1_speed : Nat
  fan2_speed : Nat
  cpu_temp : Nat
  gpu_temp : Nat

/-- Result of a sysfs store handler: the driver state after the call, the
list of `ec_write` transactions attempted (register, value, transaction
return), and the handler's return value (`count` on success, a negative
errno otherwise). -/
structure StoreOut where
  sys : Sys
  writes : List (Nat × Nat × Int)
  ret : Int

/-- Result of a sysfs show handler producing a string. -/
structure ShowStr where
  sys : Sys
  ret : Int
  out : Option String

/-- Result of a sysfs show handler producing a decimal number. -/
structure ShowNat where
  sys : Sys
  ret : Int
  out : Option Nat

/-- Kernel `sysfs_streq`: string equality up to one trailing newline on
either side (sysfs writers usually append `\n`). -/
def sysfs_streq (a b : String) : Bool :=
  a == b || a == b ++ "\n" || a ++ "\n" == b

/-- The mode-parsing chain of `performance_mode_store`
(`quiet=0 / balanced=1 / performance=2 / custom=3`, otherwise `-EINVAL`). -/
def pmParse (buf : String) : Option Nat :=
  if sysfs_streq buf "quiet" then some 0
  else if sysfs_streq buf "balanced" then some 1
  else if sysfs_streq buf "performance" then some 2
  else if sysfs_streq buf "custom" then some 3
  else none

/-- `performance_mode_store`: parse the label, reject unknown text with
`-EINVAL` before any EC access, write the mode byte, and update the cached
`performance_mode` only when the EC write returned success. -/
def performance_mode_store (sys : Sys) (env : Nat → Nat → Nat)
    (buf : String) (count : Nat) : StoreOut :=
  match pmParse buf with
  | none => ⟨sys, [], -EINVAL⟩
  | some mode =>
    let w := ec_write env sys.regs EC_REG_PERFORMANCE_MODE mode
    if w.ret ≠ 0 then
      ⟨{ sys with regs := w.regs }, [(EC_REG_PERFORMANCE_MODE, mode, w.ret)], w.ret⟩
    else
      ⟨{ sys with regs := w.regs, performance_mode := mode },
        [(EC_REG_PERFORMANCE_MODE, mode, w.ret)], (count : Int)⟩

/-- The `switch (mode)` of `performance_mode_show`. -/
def pmLabel (mode : Nat) : String :=
  match mode with
  | 0 => "quiet"
  | 1 => "balanced"
  | 2 => "performance"
  | 3 => "custom"
  | _ => "unknown"

/-- `performance_mode_show`: read the mode byte and print its label followed
by a newline (`sprintf(buf, "%s\n", ...)` returns the printed length). -/
def performance_mode_show (sys : Sys) (env : Nat → Nat → Nat) : ShowStr :=
  let r := ec_read env sys.regs EC_REG_PERFORMANCE_MODE
  if r.ret ≠ 0 then ⟨sys, r.ret, none⟩
  else
    let s := pmLabel (r.value.getD 0) ++ "\n"
    ⟨sys, (s.length : Int), some s⟩

/-- `fan1_speed_show`: read the fan-1 speed byte and print `speed * 100`. -/
def fan1_speed_show (sys : Sys) (env : Nat → Nat → Nat) : ShowNat :=
  let r := ec_read env sys.regs EC_REG_FAN1_SPEED
  if r.ret ≠ 0 then ⟨sys, r.ret, none⟩
  else
    let speed := r.value.getD 0
    ⟨sys, ((toString (speed * 100) ++ "\n").length : Int), some (speed * 100)⟩

/-- `fan2_speed_show`: read the fan-2 speed byte and print `speed * 100`. -/
def fan2_speed_show (sys : Sys) (env : Nat → Nat → Nat) : ShowNat :=
  let r := ec_read env sys.regs EC_REG_FAN2_SPEED
  if r.ret ≠ 0 then ⟨sys, r.ret, none⟩
  else
    let speed := r.value.getD 0
    ⟨sys, ((toString (speed * 100) ++ "\n").length : Int), some (speed * 100)⟩

/-- Common shape of the numeric bounded store handlers (`fan1_target_store`,
`fan2_target_store`, `cpu_pl1_store`, `cpu_pl2_store`, `gpu_tgp_store`,
`rgb_brightness_store`): the decimal value parsed by `kstrtoul` (a parse
failure returns `-EINVAL` before this point and is not modelled), rejected
with `-EINVAL` when above `bound` before any EC access, otherwise written to
`reg` as a `u8`. -/
def boundedStore (bound reg : Nat) (sys : Sys) (env : Nat → Nat → Nat)
    (v : Nat) (count : Nat) : StoreOut :=
  if v > bound then ⟨sys, [], -EINVAL⟩
  else
    let w := ec_write env sys.regs reg v
    if w.ret ≠ 0 then ⟨{ sys with regs := w.regs }, [(reg, v, w.ret)], w.ret⟩
    else ⟨{ sys with regs := w.regs }, [(reg, v, w.ret)], (count : Int)⟩

/-- `fan1_target_store`: `0 ≤ target ≤ 100`, register `EC_REG_FAN1_TARGET`. -/
def fan1_target_store (sys : Sys) (env : Nat → Nat → Nat) (v count : Nat) : StoreOut :=
  boundedStore 100 EC_REG_FAN1_TARGET sys env v count

/-- `fan2_target_store`: `0 ≤ target ≤ 100`, register `EC_REG_FAN2_TARGET`. -/
def fan2_target_store (sys : Sys) (env : Nat → Nat → Nat) (v count : Nat) : StoreOut :=
  boundedStore 100 EC_REG_FAN2_TARGET sys env v count

/-- `cpu_pl1_store`: `pl1 ≤ 140`, register `EC_REG_CPU_PL1`. -/
def cpu_pl1_store (sys : Sys) (env : Nat → Nat → Nat) (v count : Nat) : StoreOut :=
  boundedStore 140 EC_REG_CPU_PL1 sys env v count

/-- `cpu_pl2_store`: `pl2 ≤ 200`, register `EC_REG_CPU_PL2`. -/
def cpu_pl2_store (sys : Sys) (env : Nat → Nat → Nat) (v count : Nat) : StoreOut :=
  boundedStore 200 EC_REG_CPU_PL2 sys env v count

/-- `gpu_tgp_store`: `tgp ≤ 140`, register `EC_REG_GPU_TGP`. -/
def gpu_tgp_store (sys : Sys) (env : Nat → Nat → Nat) (v count : Nat) : StoreOut :=
  boundedStore 140 EC_REG_GPU_TGP sys env v count

/-- `rgb_brightness_store`: `brightness ≤ 100`, register
`EC_REG_RGB_BRIGHTNESS`. -/
def rgb_brightness_store (sys : Sys) (env : Nat → Nat → Nat) (v count : Nat) : StoreOut :=
  boundedStore 100 EC_REG_RGB_BRIGHTNESS sys env v count

/-- The label chain of `rgb_mode_store`
(`off/static/breathing/rainbow/wave` mapped to `0..4`). -/
def rgbParse (buf : String) : Option Nat :=
  if sysfs_streq buf "off" then some 0
  else if sysfs_streq buf "static" then some 1
  else if sysfs_streq buf "breathing" then some 2
  else if sysfs_streq buf "rainbow" then some 3
  else if sysfs_streq buf "wave" then some 4
  else none

/-- `rgb_mode_store`. -/
def rgb_mode_store (sys : Sys) (env : Nat → Nat → Nat)
    (buf : String) (count : Nat) : StoreOut :=
  match rgbParse buf with
  | none => ⟨sys, [], -EINVAL⟩
  | some mode =>
    let w := ec_write env sys.regs EC_REG_RGB_MODE mode
    if w.ret ≠ 0 then ⟨{ sys with regs := w.regs }, [(EC_REG_RGB_MODE, mode, w.ret)], w.ret⟩
    else ⟨{ sys with regs := w.regs }, [(EC_REG_RGB_MODE, mode, w.ret)], (count : Int)⟩

/-- Generic single-register temperature show (`cpu_temp_show`,
`gpu_temp_show`, `gpu_hotspot_show`, `vrm_temp_show`, `ssd_temp_show`):
read the register and print the raw byte. -/
def tempShow (reg : Nat) (sys : Sys) (env : Nat → Nat → Nat) : ShowNat :=
  let r := ec_read env sys.regs reg
  if r.ret ≠ 0 then ⟨sys, r.ret, none⟩
  else
    let temp := r.value.getD 0
    ⟨sys, ((toString temp ++ "\n").length : Int), some temp⟩

/-- `cpu_temp_show`. -/
def cpu_temp_show (sys : Sys) (env : Nat → Nat → Nat) : ShowNat :=
  tempShow EC_REG_CPU_TEMP sys env

/-- `gpu_temp_show`. -/
def gpu_temp_show (sys : Sys) (env : Nat → Nat → Nat) : ShowNat :=
  tempShow EC_REG_GPU_TEMP sys env

/-- `gpu_hotspot_show`. -/
def gpu_hotspot_show (sys : Sys) (env : Nat → Nat → Nat) : ShowNat :=
  tempShow EC_REG_GPU_HOTSPOT sys env

/-- `vrm_temp_show`. -/
def vrm_temp_show (sys : Sys) (env : Nat → Nat → Nat) : ShowNat :=
  tempShow EC_REG_VRM_TEMP sys env

/-- `ssd_temp_show`. -/
def ssd_temp_show (sys : Sys) (env : Nat → Nat → Nat) : ShowNat :=
  tempShow EC_REG_SSD_TEMP sys env

/-- `enum hwmon_sensor_types` restricted to the cases the driver's switch
distinguishes; `other` stands for every remaining enumerator, all of which
fall into the `default:` branch. -/
inductive HwmonSensorType where
  | temp : HwmonSensorType
  | fan : HwmonSensorType
  | other : HwmonSensorType
  deriving DecidableEq, Repr

/-- Result of `legion_hwmon_read`: the driver state after the call (the
source never touches `legion_dev` here, so it is passed through unchanged),
the return value, `*val` (set only on success), and the list of EC registers
the call read (its hardware accesses). -/
structure HwmonOut where
  sys : Sys
  ret : Int
  val : Option Nat
  reads : List Nat

/-- `legion_hwmon_read` from the source: temperature channels `0..4` map to
the CPU / GPU / GPU-hotspot / VRM / SSD temperature registers with
`*val = temp * 1000`; fan channels `0..1` map to the two fan-speed registers
with `*val = speed * 100`; everything else returns `-EOPNOTSUPP` without
touching the EC.  The channel is a C `int`, hence `Int`. -/
def legion_hwmon_read (sys : Sys) (env : Nat → Nat → Nat)
    (type : HwmonSensorType) (channel : Int) : HwmonOut :=
  match type with
  | .temp =>
    let reg? : Option Nat :=
      if channel = 0 then some EC_REG_CPU_TEMP
      else if channel = 1 then some EC_REG_GPU_TEMP
      else if channel = 2 then some EC_REG_GPU_HOTSPOT
      else if channel = 3 then some EC_REG_VRM_TEMP
      else if channel = 4 then some EC_REG_SSD_TEMP
      else none
    match reg? with
    | none => ⟨sys, -EOPNOTSUPP, none, []⟩
    | some reg =>
      let r := ec_read env sys.regs reg
      if r.ret ≠ 0 then ⟨sys, r.ret, none, [reg]⟩
      else ⟨sys, 0, some (r.value.getD 0 * 1000), [reg]⟩
  | .fan =>
    let reg? : Option Nat :=
      if channel = 0 then some EC_REG_FAN1_SPEED
      else if channel = 1 then some EC_REG_FAN2_SPEED
      else none
    match reg? with
    | none => ⟨sys, -EOPNOTSUPP, none, []⟩
    | some reg =>
      let r := ec_read env sys.regs reg
      if r.ret ≠ 0 then ⟨sys, r.ret, none, [reg]⟩
      else ⟨sys, 0, some (r.value.getD 0 * 100), [reg]⟩
  | .other => ⟨sys, -EOPNOTSUPP, none, []⟩

/-- The ten `(register, value)` pairs written by `apply_gen9_fixes_store`
when the enable flag is set, in source order. -/
def gen9_fixes_writes : List (Nat × Nat) :=
  [(0xD0, 0x69), (0xD2, 0x05), (0xD3, 0x02), (0xD4, 0x0A),
   (0xB6, 0x02), (0xB7, 0x03), (0xB8, 0x01),
   (0xC7, 0x39), (0xC8, 0x2C), (0xC9, 0x32)]

/-- Run a list of `ec_write` transactions in order, threading the register
file and ignoring each transaction's return value, exactly as the bare
`ec_write(...)` statement sequences in `apply_gen9_fixes_store` and
`legion_laptop_probe` do.  `envs k` is the wait environment of the `k`-th
write (counting from `k0`); the log records every attempted write with its
return value. -/
def runEcWrites (envs : Nat → Nat → Nat → Nat) (k0 : Nat) (regs : Nat → Nat) :
    List (Nat × Nat) → (Nat → Nat) × List (Nat × Nat × Int)
  | [] => (regs, [])
  | (r, v) :: rest =>
    let w := ec_write (envs k0) regs r v
    let res := runEcWrites envs (k0 + 1) w.regs rest
    (res.1, (r, v, w.ret) :: res.2)

/-- `apply_gen9_fixes_store` from the source: parse the enable flag
(`kstrtoul`; a parse failure returns `-EINVAL` before this point and is not
modelled); when non-zero, perform the ten `ec_write` calls in order with all
return values discarded; return `count` in every case. -/
def apply_gen9_fixes_store (sys : Sys) (envs : Nat → Nat → Nat → Nat)
    (enable : Nat) (count : Nat) : StoreOut :=
  if enable ≠ 0 then
    let res := runEcWrites envs 0 sys.regs gen9_fixes_writes
    ⟨{ sys with regs := res.1 }, res.2, (count : Int)⟩
  else ⟨sys, [], (count : Int)⟩

/-- The three `(register, value)` pairs written unconditionally at the end of
`legion_laptop_probe`, in source order. -/
def probe_init_writes : List (Nat × Nat) :=
  [(0xD0, 0x69), (0xD3, 0x02), (0xB8, 0x01)]

/-- The EC-facing tail of `legion_laptop_probe`: allocate the zero-filled
`struct legion_laptop` (`devm_kzalloc`), perform the three hardware-fix
`ec_write` calls with return values discarded, and return `0`.  The earlier
allocation/registration failure paths (`-ENOMEM`, sysfs/hwmon registration)
belong to the excluded platform-attachment machinery and are not modelled. -/
def legion_laptop_probe (regs : Nat → Nat) (envs : Nat → Nat → Nat → Nat) :
    Sys × List (Nat × Nat × Int) × Int :=
  let sys0 : Sys := ⟨regs, 0, 0, 0, 0, 0⟩
  let res := runEcWrites envs 0 sys0.regs probe_init_writes
  (⟨res.1, 0, 0, 0, 0, 0⟩, res.2, 0)

-- Helper lemmas about the transport handshakes.

theorem ec_read_value_eq (env : Nat → Nat → Nat) (regs : Nat → Nat) (reg : Nat) :
    (ec_read env regs reg).value = none ∨
    (ec_read env regs reg).value = some (regs (reg % 256) % 256) := by
  unfold ec_read
  by_cases h0 : ec_wait (env 0) = 0 <;>
    by_cases h1 : ec_wait (env 1) = 0 <;>
      by_cases h2 : ec_wait (env 2) = 0 <;>
        simp [h0, h1, h2]

theorem ec_read_ready (regs : Nat → Nat) (reg : Nat) :
    (ec_read readyEnv regs reg).ret = 0 ∧
    (ec_read readyEnv regs reg).value = some (regs (reg % 256) % 256) := by
  unfold ec_read
  simp [readyEnv, ec_wait_readyStat]

theorem ec_write_ready (regs : Nat → Nat) (reg v : Nat) :
    (ec_write readyEnv regs reg v).ret = 0 ∧
    (ec_write readyEnv regs reg v).regs = setReg regs (reg % 256) (v % 256) := by
  unfold ec_write
  simp [readyEnv, ec_wait_readyStat]

theorem ec_read_ret_zero (env : Nat → Nat → Nat) (regs : Nat → Nat) (reg : Nat)
    (h : (ec_read env regs reg).ret = 0) :
    (ec_read env regs reg).value = some (regs (reg % 256) % 256) := by
  unfold ec_read at h ⊢
  by_cases h0 : ec_wait (env 0) = 0 <;>
    by_cases h1 : ec_wait (env 1) = 0 <;>
      by_cases h2 : ec_wait (env 2) = 0 <;>
        simp_all

/-- C3: the handshake wait primitive polls bit 1 of the command status byte
at most 1000 times (with `udelay(10)` between polls in the source); it
returns success as soon as the flag clears (after `k + 1` polls when poll
`k` is the first with the flag clear), and when the flag never clears within
the 1000 attempts it terminates with `-ETIMEDOUT` after exactly 1000 polls
rather than waiting forever. -/
theorem claim_C3 (stat : Nat → Nat) :
    ec_wait_polls stat ≤ 1000 ∧
    ((∀ i, i < 1000 → stat i &&& 0x02 ≠ 0) →
      ec_wait stat = -ETIMEDOUT ∧ ec_wait_polls stat = 1000) ∧
    (∀ k, k < 1000 → stat k &&& 0x02 = 0 →
      (∀ j, j < k → stat j &&& 0x02 ≠ 0) →
      ec_wait stat = 0 ∧ ec_wait_polls stat = k + 1) := by
  refine ⟨ecWaitAux_polls_le stat 1000 0, ec_wait_busy_all stat, ?_⟩
  intro k hk hclear hbusy
  have h := ecWaitAux_clear stat 1000 0 k hk (by simpa using hclear)
    (by intro j hj; simpa using hbusy j hj)
  exact ⟨by simp [ec_wait, h], by simp [ec_wait_polls, h]⟩

/-- C3 witness: a status source fixed to busy (`0x02`) yields `-ETIMEDOUT`
after exactly 1000 polls, and a status source that is ready at once yields
success after a single poll. -/
theorem claim_C3_witness :
    (ec_wait busyStat = -ETIMEDOUT ∧ ec_wait_polls busyStat = 1000) ∧
    (ec_wait readyStat = 0 ∧ ec_wait_polls readyStat = 1) := by
  constructor
  · exact (claim_C3 busyStat).2.1 (by intro i _; simp [busyStat])
  · exact (claim_C3 readyStat).2.2 0 (by omega) (by simp [readyStat]) (by omega)

/-- C2: for every exit path of `ec_read` and `ec_write`, the trace starts
with exactly one lock acquisition and ends with exactly one lock release; a
wait failure at any handshake step aborts the remaining steps (on a failed
read the data byte is never retrieved and no value is produced) and surfaces
`-ETIMEDOUT`; a successful read yields exactly the register's byte. -/
theorem claim_C2 (env : Nat → Nat → Nat) (regs : Nat → Nat) (reg v : Nat) :
    ((ec_read env regs reg).events.head? = some .lock ∧
      (ec_read env regs reg).events.getLast? = some .unlock ∧
      (ec_read env regs reg).events.count .lock = 1 ∧
      (ec_read env regs reg).events.count .unlock = 1 ∧
      ((ec_read env regs reg).ret ≠ 0 →
        (ec_read env regs reg).ret = -ETIMEDOUT ∧
        (ec_read env regs reg).value = none ∧
        Ev.inb EC_PORT_DATA ∉ (ec_read env regs reg).events) ∧
      ((ec_read env regs reg).ret = 0 →
        (ec_read env regs reg).value = some (regs (reg % 256) % 256))) ∧
    ((ec_write env regs reg v).events.head? = some .lock ∧
      (ec_write env regs reg v).events.getLast? = some .unlock ∧
      (ec_write env regs reg v).events.count .lock = 1 ∧
      (ec_write env regs reg v).events.count .unlock = 1 ∧
      ((ec_write env regs reg v).ret ≠ 0 →
        (ec_write env regs reg v).ret = -ETIMEDOUT)) := by
  have c0 := ec_wait_cases (env 0)
  have c1 := ec_wait_cases (env 1)
  have c2 := ec_wait_cases (env 2)
  have c3 := ec_wait_cases (env 3)
  unfold ec_read ec_write
  rcases c0 with h0 | h0 <;> rcases c1 with h1 | h1 <;>
    rcases c2 with h2 | h2 <;> rcases c3 with h3 | h3 <;>
      simp [h0, h1, h2, h3, ETIMEDOUT, List.count_cons]

/-- C2 witness: with every wait timing out, a read returns `-ETIMEDOUT` with
no value and never touches the data port; with every wait ready, the read
returns the register byte. -/
theorem claim_C2_witness :
    ((ec_read busyEnv (fun _ => 0) 0xA0).ret = -ETIMEDOUT ∧
      (ec_read busyEnv (fun _ => 0) 0xA0).value = none ∧
      Ev.inb EC_PORT_DATA ∉ (ec_read busyEnv (fun _ => 0) 0xA0).events) ∧
    (ec_read readyEnv (fun _ => 0) 0xA0).value = some 0 := by
  constructor
  · refine (claim_C2 busyEnv (fun _ => 0) 0xA0 0).1.2.2.2.2.1 ?_
    simp [ec_read, busyEnv, ec_wait_busyStat, ETIMEDOUT]
  · simpa using (claim_C2 readyEnv (fun _ => 0) 0xA0 0).1.2.2.2.2.2
      (ec_read_ready (fun _ => 0) 0xA0).1

/-- C4: `performance_mode_store` accepts exactly the labels
`quiet`/`balanced`/`performance`/`custom` (equality taken by `sysfs_streq`,
i.e. up to the sysfs trailing newline), mapping them to bytes 0/1/2/3; any
other text yields `-EINVAL` with no hardware access (empty transaction log,
state unchanged); and the cached `performance_mode` is updated only when the
EC write returned success, so any failed store leaves the cache unchanged. -/
theorem claim_C4 (sys : Sys) (env : Nat → Nat → Nat) (buf : String) (count : Nat) :
    ((pmParse buf).isSome ↔
      (sysfs_streq buf "quiet" || sysfs_streq buf "balanced" ||
        sysfs_streq buf "performance" || sysfs_streq buf "custom") = true) ∧
    pmParse "quiet" = some 0 ∧ pmParse "balanced" = some 1 ∧
    pmParse "performance" = some 2 ∧ pmParse "custom" = some 3 ∧
    (pmParse buf = none →
      performance_mode_store sys env buf count = ⟨sys, [], -EINVAL⟩) ∧
    ((performance_mode_store sys env buf count).ret ≠ (count : Int) →
      (performance_mode_store sys env buf count).sys.performance_mode =
        sys.performance_mode) ∧
    (∀ m, pmParse buf = some m →
      (ec_write env sys.regs EC_REG_PERFORMANCE_MODE m).ret = 0 →
      (performance_mode_store sys env buf count).sys.performance_mode = m ∧
      (performance_mode_store sys env buf count).ret = (count : Int)) := by
  refine ⟨?_, by decide, by decide, by decide, by decide, ?_, ?_, ?_⟩
  · unfold pmParse
    split_ifs <;> simp_all
  · intro h
    simp [performance_mode_store, h]
  · intro h
    unfold performance_mode_store at h ⊢
    cases hp : pmParse buf with
    | none => simp
    | some m =>
      simp only [hp] at h ⊢
      by_cases hw : (ec_write env sys.regs EC_REG_PERFORMANCE_MODE m).ret = 0
      · simp [hw] at h
      · simp [hw]
  · intro m hp hw
    unfold performance_mode_store
    simp [hp, hw]

/-- C4 witness: the text `bogus` is rejected with `-EINVAL` and no EC
transaction, and a successful store of `custom` sets the cached mode to 3
and returns `count`. -/
theorem claim_C4_witness :
    performance_mode_store ⟨fun _ => 0, 0, 0, 0, 0, 0⟩ readyEnv "bogus" 6 =
      ⟨⟨fun _ => 0, 0, 0, 0, 0, 0⟩, [], -EINVAL⟩ ∧
    (performance_mode_store ⟨fun _ => 0, 0, 0, 0, 0, 0⟩ readyEnv "custom" 7).sys.performance_mode = 3 ∧
    (performance_mode_store ⟨fun _ => 0, 0, 0, 0, 0, 0⟩ readyEnv "custom" 7).ret = 7 := by
  refine ⟨?_, ?_⟩
  · exact (claim_C4 ⟨fun _ => 0, 0, 0, 0, 0, 0⟩ readyEnv "bogus" 6).2.2.2.2.2.1 (by decide)
  · have := (claim_C4 ⟨fun _ => 0, 0, 0, 0, 0, 0⟩ readyEnv "custom" 7).2.2.2.2.2.2.2 3
      (by decide) (ec_write_ready (fun _ => 0) EC_REG_PERFORMANCE_MODE 3).1
    exact this

/-- C5: for every valid performance-mode label, storing that label through
`performance_mode_store` and then reading through `performance_mode_show`
returns the just-written label (followed by the `sprintf` newline), in the
EC model where a register read returns the last byte written to it and every
handshake wait succeeds. -/
theorem claim_C5 (sys : Sys) (count : Nat) :
    (performance_mode_show
      (performance_mode_store sys readyEnv "quiet" count).sys readyEnv).out =
        some "quiet\n" ∧
    (performance_mode_show
      (performance_mode_store sys readyEnv "balanced" count).sys readyEnv).out =
        some "balanced\n" ∧
    (performance_mode_show
      (performance_mode_store sys readyEnv "performance" count).sys readyEnv).out =
        some "performance\n" ∧
    (performance_mode_show
      (performance_mode_store sys readyEnv "custom" count).sys readyEnv).out =
        some "custom\n" := by
  have hshow : ∀ (regs : Nat → Nat) (m : Nat), m < 4 →
      (performance_mode_show
        ⟨setReg regs (EC_REG_PERFORMANCE_MODE % 256) (m % 256),
          m, sys.fan1_speed, sys.fan2_speed, sys.cpu_temp, sys.gpu_temp⟩ readyEnv).out =
      some (pmLabel m ++ "\n") := by
    intro regs m hm
    have hm256 : m % 256 = m := Nat.mod_eq_of_lt (by omega)
    rw [hm256]
    have hr := ec_read_ready (setReg regs (EC_REG_PERFORMANCE_MODE % 256) m)
      EC_REG_PERFORMANCE_MODE
    unfold performance_mode_show
    rw [if_neg (by simp [hr.1])]
    have hv : (ec_read readyEnv
        (setReg regs (EC_REG_PERFORMANCE_MODE % 256) m)
        EC_REG_PERFORMANCE_MODE).value = some m := by
      rw [hr.2]
      simp [setReg, hm256]
    simp [hv]
  have hstore : ∀ (buf : String) (m : Nat), pmParse buf = some m →
      (performance_mode_store sys readyEnv buf count).sys =
        ⟨setReg sys.regs (EC_REG_PERFORMANCE_MODE % 256) (m % 256),
          m, sys.fan1_speed, sys.fan2_speed, sys.cpu_temp, sys.gpu_temp⟩ := by
    intro buf m hp
    have hw := ec_write_ready sys.regs EC_REG_PERFORMANCE_MODE m
    unfold performance_mode_store
    simp [hp, hw.1, hw.2]
  refine ⟨?_, ?_, ?_, ?_⟩
  · rw [hstore "quiet" 0 (by decide), hshow sys.regs 0 (by omega)]; rfl
  · rw [hstore "balanced" 1 (by decide), hshow sys.regs 1 (by omega)]; rfl
  · rw [hstore "performance" 2 (by decide), hshow sys.regs 2 (by omega)]; rfl
  · rw [hstore "custom" 3 (by decide), hshow sys.regs 3 (by omega)]; rfl

theorem ec_read_getD (env : Nat → Nat → Nat) (regs : Nat → Nat) (reg : Nat)
    (h : (ec_read env regs reg).ret = 0) :
    (ec_read env regs reg).value.getD 0 = regs (reg % 256) % 256 := by
  rw [ec_read_ret_zero env regs reg h]
  rfl

/-- C6: every fan-speed read path (the two per-fan sysfs attributes and the
two hwmon fan channels) reports exactly `raw byte * 100` RPM; the raw byte
is the fan-speed register's value reduced modulo 256, so the relation holds
for every byte value 0-255. -/
theorem claim_C6 (sys : Sys) (env : Nat → Nat → Nat) (v : Nat) :
    ((fan1_speed_show sys env).out = some v →
      v = sys.regs EC_REG_FAN1_SPEED % 256 * 100) ∧
    ((fan2_speed_show sys env).out = some v →
      v = sys.regs EC_REG_FAN2_SPEED % 256 * 100) ∧
    ((legion_hwmon_read sys env .fan 0).val = some v →
      v = sys.regs EC_REG_FAN1_SPEED % 256 * 100) ∧
    ((legion_hwmon_read sys env .fan 1).val = some v →
      v = sys.regs EC_REG_FAN2_SPEED % 256 * 100) := by
  have e1 : EC_REG_FAN1_SPEED % 256 = EC_REG_FAN1_SPEED := by decide
  have e2 : EC_REG_FAN2_SPEED % 256 = EC_REG_FAN2_SPEED := by decide
  have hn0 : legion_hwmon_read sys env .fan 0 =
      (if (ec_read env sys.regs EC_REG_FAN1_SPEED).ret ≠ 0 then
        ⟨sys, (ec_read env sys.regs EC_REG_FAN1_SPEED).ret, none, [EC_REG_FAN1_SPEED]⟩
      else
        ⟨sys, 0, some ((ec_read env sys.regs EC_REG_FAN1_SPEED).value.getD 0 * 100),
          [EC_REG_FAN1_SPEED]⟩) := rfl
  have hn1 : legion_hwmon_read sys env .fan 1 =
      (if (ec_read env sys.regs EC_REG_FAN2_SPEED).ret ≠ 0 then
        ⟨sys, (ec_read env sys.regs EC_REG_FAN2_SPEED).ret, none, [EC_REG_FAN2_SPEED]⟩
      else
        ⟨sys, 0, some ((ec_read env sys.regs EC_REG_FAN2_SPEED).value.getD 0 * 100),
          [EC_REG_FAN2_SPEED]⟩) := rfl
  refine ⟨?_, ?_, ?_, ?_⟩
  · intro h
    unfold fan1_speed_show at h
    by_cases hr : (ec_read env sys.regs EC_REG_FAN1_SPEED).ret = 0
    · rw [if_neg (by simp [hr])] at h
      simp only [ec_read_getD env sys.regs EC_REG_FAN1_SPEED hr, e1,
        Option.some.injEq] at h
      omega
    · rw [if_pos hr] at h
      simp at h
  · intro h
    unfold fan2_speed_show at h
    by_cases hr : (ec_read env sys.regs EC_REG_FAN2_SPEED).ret = 0
    · rw [if_neg (by simp [hr])] at h
      simp only [ec_read_getD env sys.regs EC_REG_FAN2_SPEED hr, e2,
        Option.some.injEq] at h
      omega
    · rw [if_pos hr] at h
      simp at h
  · intro h
    rw [hn0] at h
    by_cases hr : (ec_read env sys.regs EC_REG_FAN1_SPEED).ret = 0
    · rw [if_neg (by simp [hr])] at h
      simp only [ec_read_getD env sys.regs EC_REG_FAN1_SPEED hr, e1,
        Option.some.injEq] at h
      omega
    · rw [if_pos hr] at h
      simp at h
  · intro h
    rw [hn1] at h
    by_cases hr : (ec_read env sys.regs EC_REG_FAN2_SPEED).ret = 0
    · rw [if_neg (by simp [hr])] at h
      simp only [ec_read_getD env sys.regs EC_REG_FAN2_SPEED hr, e2,
        Option.some.injEq] at h
      omega
    · rw [if_pos hr] at h
      simp at h

/-- C6 witness: with the fan-1 register holding 123 and the fan-2 register
holding 255, the attribute reads report 12300 and 25500 RPM. -/
theorem claim_C6_witness :
    12300 = (⟨fun _ => 123, 0, 0, 0, 0, 0⟩ : Sys).regs EC_REG_FAN1_SPEED % 256 * 100 ∧
    25500 = (⟨fun _ => 255, 0, 0, 0, 0, 0⟩ : Sys).regs EC_REG_FAN2_SPEED % 256 * 100 := by
  constructor
  · exact (claim_C6 ⟨fun _ => 123, 0, 0, 0, 0, 0⟩ readyEnv 12300).1 (by decide)
  · exact (claim_C6 ⟨fun _ => 255, 0, 0, 0, 0, 0⟩ readyEnv 25500).2.1 (by decide)

theorem boundedStore_le (b reg : Nat) (sys : Sys) (env : Nat → Nat → Nat)
    (v count : Nat) (h : v ≤ b) :
    (boundedStore b reg sys env v count).writes.map (fun w => (w.1, w.2.1)) = [(reg, v)] ∧
    ((ec_write env sys.regs reg v).ret = 0 →
      (boundedStore b reg sys env v count).ret = (count : Int)) := by
  unfold boundedStore
  rw [if_neg (by omega)]
  by_cases hw : (ec_write env sys.regs reg v).ret = 0 <;> simp [hw]

theorem boundedStore_gt (b reg : Nat) (sys : Sys) (env : Nat → Nat → Nat)
    (v count : Nat) (h : b < v) :
    boundedStore b reg sys env v count = ⟨sys, [], -EINVAL⟩ := by
  unfold boundedStore
  rw [if_pos (by omega)]

/-- C7: each bounded numeric store accepts exactly the values up to its bound
(the single `ec_write` to its register is attempted, and a successful write
returns `count`) and rejects every larger value with `-EINVAL` and an empty
transaction log, i.e. before any hardware write: fan targets and RGB
brightness are bounded by 100, CPU PL1 and GPU TGP by 140, CPU PL2 by 200. -/
theorem claim_C7 (sys : Sys) (env : Nat → Nat → Nat) (v count : Nat) :
    ((v ≤ 100 →
      (fan1_target_store sys env v count).writes.map (fun w => (w.1, w.2.1)) =
        [(EC_REG_FAN1_TARGET, v)]) ∧
     (100 < v → fan1_target_store sys env v count = ⟨sys, [], -EINVAL⟩)) ∧
    ((v ≤ 100 →
      (fan2_target_store sys env v count).writes.map (fun w => (w.1, w.2.1)) =
        [(EC_REG_FAN2_TARGET, v)]) ∧
     (100 < v → fan2_target_store sys env v count = ⟨sys, [], -EINVAL⟩)) ∧
    ((v ≤ 100 →
      (rgb_brightness_store sys env v count).writes.map (fun w => (w.1, w.2.1)) =
        [(EC_REG_RGB_BRIGHTNESS, v)]) ∧
     (100 < v → rgb_brightness_store sys env v count = ⟨sys, [], -EINVAL⟩)) ∧
    ((v ≤ 140 →
      (cpu_pl1_store sys env v count).writes.map (fun w => (w.1, w.2.1)) =
        [(EC_REG_CPU_PL1, v)]) ∧
     (140 < v → cpu_pl1_store sys env v count = ⟨sys, [], -EINVAL⟩)) ∧
    ((v ≤ 200 →
      (cpu_pl2_store sys env v count).writes.map (fun w => (w.1, w.2.1)) =
        [(EC_REG_CPU_PL2, v)]) ∧
     (200 < v → cpu_pl2_store sys env v count = ⟨sys, [], -EINVAL⟩)) ∧
    ((v ≤ 140 →
      (gpu_tgp_store sys env v count).writes.map (fun w => (w.1, w.2.1)) =
        [(EC_REG_GPU_TGP, v)]) ∧
     (140 < v → gpu_tgp_store sys env v count = ⟨sys, [], -EINVAL⟩)) := by
  unfold fan1_target_store fan2_target_store rgb_brightness_store
    cpu_pl1_store cpu_pl2_store gpu_tgp_store
  exact ⟨⟨fun h => (boundedStore_le _ _ _ _ _ _ h).1, boundedStore_gt _ _ _ _ _ _⟩,
    ⟨fun h => (boundedStore_le _ _ _ _ _ _ h).1, boundedStore_gt _ _ _ _ _ _⟩,
    ⟨fun h => (boundedStore_le _ _ _ _ _ _ h).1, boundedStore_gt _ _ _ _ _ _⟩,
    ⟨fun h => (boundedStore_le _ _ _ _ _ _ h).1, boundedStore_gt _ _ _ _ _ _⟩,
    ⟨fun h => (boundedStore_le _ _ _ _ _ _ h).1, boundedStore_gt _ _ _ _ _ _⟩,
    ⟨fun h => (boundedStore_le _ _ _ _ _ _ h).1, boundedStore_gt _ _ _ _ _ _⟩⟩

/-- C7 witness: the boundary values are accepted (100 for the fan target,
140 for PL1 and TGP, 200 for PL2: exactly one write is attempted) and
boundary+1 is rejected with `-EINVAL` and no write. -/
theorem claim_C7_witness :
    (fan1_target_store ⟨fun _ => 0, 0, 0, 0, 0, 0⟩ readyEnv 100 4).writes.map
      (fun w => (w.1, w.2.1)) = [(EC_REG_FAN1_TARGET, 100)] ∧
    fan1_target_store ⟨fun _ => 0, 0, 0, 0, 0, 0⟩ readyEnv 101 4 =
      ⟨⟨fun _ => 0, 0, 0, 0, 0, 0⟩, [], -EINVAL⟩ ∧
    (cpu_pl1_store ⟨fun _ => 0, 0, 0, 0, 0, 0⟩ readyEnv 140 4).writes.map
      (fun w => (w.1, w.2.1)) = [(EC_REG_CPU_PL1, 140)] ∧
    cpu_pl1_store ⟨fun _ => 0, 0, 0, 0, 0, 0⟩ readyEnv 141 4 =
      ⟨⟨fun _ => 0, 0, 0, 0, 0, 0⟩, [], -EINVAL⟩ ∧
    (cpu_pl2_store ⟨fun _ => 0, 0, 0, 0, 0, 0⟩ readyEnv 200 4).writes.map
      (fun w => (w.1, w.2.1)) = [(EC_REG_CPU_PL2, 200)] ∧
    cpu_pl2_store ⟨fun _ => 0, 0, 0, 0, 0, 0⟩ readyEnv 201 4 =
      ⟨⟨fun _ => 0, 0, 0, 0, 0, 0⟩, [], -EINVAL⟩ ∧
    (gpu_tgp_store ⟨fun _ => 0, 0, 0, 0, 0, 0⟩ readyEnv 140 4).writes.map
      (fun w => (w.1, w.2.1)) = [(EC_REG_GPU_TGP, 140)] ∧
    gpu_tgp_store ⟨fun _ => 0, 0, 0, 0, 0, 0⟩ readyEnv 141 4 =
      ⟨⟨fun _ => 0, 0, 0, 0, 0, 0⟩, [], -EINVAL⟩ := by
  refine ⟨(claim_C7 _ readyEnv 100 4).1.1 (by omega),
    (claim_C7 _ readyEnv 101 4).1.2 (by omega),
    (claim_C7 _ readyEnv 140 4).2.2.2.1.1 (by omega),
    (claim_C7 _ readyEnv 141 4).2.2.2.1.2 (by omega),
    (claim_C7 _ readyEnv 200 4).2.2.2.2.1.1 (by omega),
    (claim_C7 _ readyEnv 201 4).2.2.2.2.1.2 (by omega),
    (claim_C7 _ readyEnv 140 4).2.2.2.2.2.1 (by omega),
    (claim_C7 _ readyEnv 141 4).2.2.2.2.2.2 (by omega)⟩

theorem hwmon_val_aux (sys : Sys) (env : Nat → Nat → Nat) (reg m v : Nat)
    (h : (if (ec_read env sys.regs reg).ret ≠ 0 then
            (⟨sys, (ec_read env sys.regs reg).ret, none, [reg]⟩ : HwmonOut)
          else
            ⟨sys, 0, some ((ec_read env sys.regs reg).value.getD 0 * m),
              [reg]⟩).val = some v) :
    v = sys.regs (reg % 256) % 256 * m := by
  by_cases hr : (ec_read env sys.regs reg).ret = 0
  · rw [if_neg (by simp [hr])] at h
    simp only [ec_read_getD env sys.regs reg hr, Option.some.injEq] at h
    exact h.symm
  · rw [if_pos hr] at h
    simp at h

/-- C8: the sensor-query interface maps temperature channels 0-4 to the CPU,
GPU, GPU-hotspot, VRM and SSD temperature registers, reporting
`raw byte * 1000` millidegrees; fan channels 0-1 map to the two fan-speed
registers, reporting `raw byte * 100` RPM; every other channel index (and
every other sensor type) returns `-EOPNOTSUPP` immediately with an empty
read log, i.e. without any hardware access. -/
theorem claim_C8 (sys : Sys) (env : Nat → Nat → Nat) (channel : Int) (v : Nat) :
    (legion_hwmon_read sys env .temp 0).reads = [EC_REG_CPU_TEMP] ∧
    (legion_hwmon_read sys env .temp 1).reads = [EC_REG_GPU_TEMP] ∧
    (legion_hwmon_read sys env .temp 2).reads = [EC_REG_GPU_HOTSPOT] ∧
    (legion_hwmon_read sys env .temp 3).reads = [EC_REG_VRM_TEMP] ∧
    (legion_hwmon_read sys env .temp 4).reads = [EC_REG_SSD_TEMP] ∧
    (legion_hwmon_read sys env .fan 0).reads = [EC_REG_FAN1_SPEED] ∧
    (legion_hwmon_read sys env .fan 1).reads = [EC_REG_FAN2_SPEED] ∧
    ((legion_hwmon_read sys env .temp 0).val = some v →
      v = sys.regs EC_REG_CPU_TEMP % 256 * 1000) ∧
    ((legion_hwmon_read sys env .temp 1).val = some v →
      v = sys.regs EC_REG_GPU_TEMP % 256 * 1000) ∧
    ((legion_hwmon_read sys env .temp 2).val = some v →
      v = sys.regs EC_REG_GPU_HOTSPOT % 256 * 1000) ∧
    ((legion_hwmon_read sys env .temp 3).val = some v →
      v = sys.regs EC_REG_VRM_TEMP % 256 * 1000) ∧
    ((legion_hwmon_read sys env .temp 4).val = some v →
      v = sys.regs EC_REG_SSD_TEMP % 256 * 1000) ∧
    ((legion_hwmon_read sys env .fan 0).val = some v →
      v = sys.regs EC_REG_FAN1_SPEED % 256 * 100) ∧
    ((legion_hwmon_read sys env .fan 1).val = some v →
      v = sys.regs EC_REG_FAN2_SPEED % 256 * 100) ∧
    ((channel < 0 ∨ 4 < channel) →
      legion_hwmon_read sys env .temp channel = ⟨sys, -EOPNOTSUPP, none, []⟩) ∧
    ((channel < 0 ∨ 1 < channel) →
      legion_hwmon_read sys env .fan channel = ⟨sys, -EOPNOTSUPP, none, []⟩) ∧
    legion_hwmon_read sys env .other channel = ⟨sys, -EOPNOTSUPP, none, []⟩ := by
  have et0 : legion_hwmon_read sys env .temp 0 =
      (if (ec_read env sys.regs EC_REG_CPU_TEMP).ret ≠ 0 then
        ⟨sys, (ec_read env sys.regs EC_REG_CPU_TEMP).ret, none, [EC_REG_CPU_TEMP]⟩
      else
        ⟨sys, 0, some ((ec_read env sys.regs EC_REG_CPU_TEMP).value.getD 0 * 1000),
          [EC_REG_CPU_TEMP]⟩) := rfl
  have et1 : legion_hwmon_read sys env .temp 1 =
      (if (ec_read env sys.regs EC_REG_GPU_TEMP).ret ≠ 0 then
        ⟨sys, (ec_read env sys.regs EC_REG_GPU_TEMP).ret, none, [EC_REG_GPU_TEMP]⟩
      else
        ⟨sys, 0, some ((ec_read env sys.regs EC_REG_GPU_TEMP).value.getD 0 * 1000),
          [EC_REG_GPU_TEMP]⟩) := rfl
  have et2 : legion_hwmon_read sys env .temp 2 =
      (if (ec_read env sys.regs EC_REG_GPU_HOTSPOT).ret ≠ 0 then
        ⟨sys, (ec_read env sys.regs EC_REG_GPU_HOTSPOT).ret, none, [EC_REG_GPU_HOTSPOT]⟩
      else
        ⟨sys, 0, some ((ec_read env sys.regs EC_REG_GPU_HOTSPOT).value.getD 0 * 1000),
          [EC_REG_GPU_HOTSPOT]⟩) := rfl
  have et3 : legion_hwmon_read sys env .temp 3 =
      (if (ec_read env sys.regs EC_REG_VRM_TEMP).ret ≠ 0 then
        ⟨sys, (ec_read env sys.regs EC_REG_VRM_TEMP).ret, none, [EC_REG_VRM_TEMP]⟩
      else
        ⟨sys, 0, some ((ec_read env sys.regs EC_REG_VRM_TEMP).value.getD 0 * 1000),
          [EC_REG_VRM_TEMP]⟩) := rfl
  have et4 : legion_hwmon_read sys env .temp 4 =
      (if (ec_read env sys.regs EC_REG_SSD_TEMP).ret ≠ 0 then
        ⟨sys, (ec_read env sys.regs EC_REG_SSD_TEMP).ret, none, [EC_REG_SSD_TEMP]⟩
      else
        ⟨sys, 0, some ((ec_read env sys.regs EC_REG_SSD_TEMP).value.getD 0 * 1000),
          [EC_REG_SSD_TEMP]⟩) := rfl
  have ef0 : legion_hwmon_read sys env .fan 0 =
      (if (ec_read env sys.regs EC_REG_FAN1_SPEED).ret ≠ 0 then
        ⟨sys, (ec_read env sys.regs EC_REG_FAN1_SPEED).ret, none, [EC_REG_FAN1_SPEED]⟩
      else
        ⟨sys, 0, some ((ec_read env sys.regs EC_REG_FAN1_SPEED).value.getD 0 * 100),
          [EC_REG_FAN1_SPEED]⟩) := rfl
  have ef1 : legion_hwmon_read sys env .fan 1 =
      (if (ec_read env sys.regs EC_REG_FAN2_SPEED).ret ≠ 0 then
        ⟨sys, (ec_read env sys.regs EC_REG_FAN2_SPEED).ret, none, [EC_REG_FAN2_SPEED]⟩
      else
        ⟨sys, 0, some ((ec_read env sys.regs EC_REG_FAN2_SPEED).value.getD 0 * 100),
          [EC_REG_FAN2_SPEED]⟩) := rfl
  refine ⟨by rw [et0]; split <;> rfl, by rw [et1]; split <;> rfl,
    by rw [et2]; split <;> rfl, by rw [et3]; split <;> rfl,
    by rw [et4]; split <;> rfl, by rw [ef0]; split <;> rfl,
    by rw [ef1]; split <;> rfl, ?_, ?_, ?_, ?_, ?_, ?_, ?_, ?_, ?_, rfl⟩
  · intro h
    rw [et0] at h
    simpa using hwmon_val_aux sys env EC_REG_CPU_TEMP 1000 v h
  · intro h
    rw [et1] at h
    simpa using hwmon_val_aux sys env EC_REG_GPU_TEMP 1000 v h
  · intro h
    rw [et2] at h
    simpa using hwmon_val_aux sys env EC_REG_GPU_HOTSPOT 1000 v h
  · intro h
    rw [et3] at h
    simpa using hwmon_val_aux sys env EC_REG_VRM_TEMP 1000 v h
  · intro h
    rw [et4] at h
    simpa using hwmon_val_aux sys env EC_REG_SSD_TEMP 1000 v h
  · intro h
    rw [ef0] at h
    simpa using hwmon_val_aux sys env EC_REG_FAN1_SPEED 100 v h
  · intro h
    rw [ef1] at h
    simpa using hwmon_val_aux sys env EC_REG_FAN2_SPEED 100 v h
  · intro hc
    have h0 : ¬ channel = 0 := by omega
    have h1 : ¬ channel = 1 := by omega
    have h2 : ¬ channel = 2 := by omega
    have h3 : ¬ channel = 3 := by omega
    have h4 : ¬ channel = 4 := by omega
    unfold legion_hwmon_read
    simp [h0, h1, h2, h3, h4]
  · intro hc
    have h0 : ¬ channel = 0 := by omega
    have h1 : ¬ channel = 1 := by omega
    unfold legion_hwmon_read
    simp [h0, h1]

/-- C8 witness: temperature channel 7 and fan channel 2 are rejected with
`-EOPNOTSUPP` and an empty read log, and temperature channel 0 with the CPU
register holding 55 reports 55000 millidegrees. -/
theorem claim_C8_witness :
    legion_hwmon_read ⟨fun _ => 55, 0, 0, 0, 0, 0⟩ readyEnv .temp 7 =
      ⟨⟨fun _ => 55, 0, 0, 0, 0, 0⟩, -EOPNOTSUPP, none, []⟩ ∧
    legion_hwmon_read ⟨fun _ => 55, 0, 0, 0, 0, 0⟩ readyEnv .fan 2 =
      ⟨⟨fun _ => 55, 0, 0, 0, 0, 0⟩, -EOPNOTSUPP, none, []⟩ ∧
    55000 = (⟨fun _ => 55, 0, 0, 0, 0, 0⟩ : Sys).regs EC_REG_CPU_TEMP % 256 * 1000 := by
  refine ⟨(claim_C8 ⟨fun _ => 55, 0, 0, 0, 0, 0⟩ readyEnv 7 0).2.2.2.2.2.2.2.2.2.2.2.2.2.2.1
      (by omega),
    (claim_C8 ⟨fun _ => 55, 0, 0, 0, 0, 0⟩ readyEnv 2 0).2.2.2.2.2.2.2.2.2.2.2.2.2.2.2.1
      (by omega),
    (claim_C8 ⟨fun _ => 55, 0, 0, 0, 0, 0⟩ readyEnv 0 55000).2.2.2.2.2.2.2.1 (by decide)⟩

theorem runEcWrites_map (envs : Nat → Nat → Nat → Nat) :
    ∀ (l : List (Nat × Nat)) (k0 : Nat) (regs : Nat → Nat),
      (runEcWrites envs k0 regs l).2.map (fun w => (w.1, w.2.1)) = l := by
  intro l
  induction l with
  | nil => intro k0 regs; rfl
  | cons p rest ih =>
    intro k0 regs
    cases p with
    | mk r v => simp [runEcWrites, ih]

set_option maxRecDepth 100000 in
/-- C1 counterexample: forcing the third of the ten tuning-profile writes to
time out (its waits never become ready) while all other writes succeed, the
operation still attempts all ten writes, leaves the first two applied, and
returns `count` — it does NOT return the failure, contradicting the claim
that the operation returns the first failure. -/
theorem claim_C1_counterexample :
    (apply_gen9_fixes_store ⟨fun _ => 0, 0, 0, 0, 0, 0⟩
       (fun k => if k = 2 then busyEnv else readyEnv) 1 5).writes.map
         (fun w => w.2.2) = [0, 0, -ETIMEDOUT, 0, 0, 0, 0, 0, 0, 0] ∧
    (apply_gen9_fixes_store ⟨fun _ => 0, 0, 0, 0, 0, 0⟩
       (fun k => if k = 2 then busyEnv else readyEnv) 1 5).ret = 5 ∧
    (apply_gen9_fixes_store ⟨fun _ => 0, 0, 0, 0, 0, 0⟩
       (fun k => if k = 2 then busyEnv else readyEnv) 1 5).ret ≠ -ETIMEDOUT ∧
    (apply_gen9_fixes_store ⟨fun _ => 0, 0, 0, 0, 0, 0⟩
       (fun k => if k = 2 then busyEnv else readyEnv) 1 5).sys.regs 0xD0 = 0x69 ∧
    (apply_gen9_fixes_store ⟨fun _ => 0, 0, 0, 0, 0, 0⟩
       (fun k => if k = 2 then busyEnv else readyEnv) 1 5).sys.regs 0xD2 = 0x05 := by
  decide

/-- C1 as amended: applying the tuning profile with the enable flag set
attempts the fixed ordered sequence of all 10 register writes regardless of
individual failures — prior writes remain applied, but the return values of
the constituent writes are discarded and the operation returns `count`
(success) even when some write fails; with the flag clear it is a no-op
returning `count`. -/
theorem claim_C1_amended (sys : Sys) (envs : Nat → Nat → Nat → Nat)
    (enable count : Nat) :
    (enable = 0 →
      apply_gen9_fixes_store sys envs enable count = ⟨sys, [], (count : Int)⟩) ∧
    (enable ≠ 0 →
      (apply_gen9_fixes_store sys envs enable count).writes.map
        (fun w => (w.1, w.2.1)) = gen9_fixes_writes ∧
      (apply_gen9_fixes_store sys envs enable count).ret = (count : Int)) := by
  constructor
  · intro h
    simp [apply_gen9_fixes_store, h]
  · intro h
    unfold apply_gen9_fixes_store
    rw [if_pos h]
    exact ⟨runEcWrites_map envs gen9_fixes_writes 0 sys.regs, rfl⟩

/-- C1 witness: with the flag clear the operation is a no-op returning
`count`; with the flag set it attempts exactly the ten fixed writes. -/
theorem claim_C1_witness :
    apply_gen9_fixes_store ⟨fun _ => 0, 0, 0, 0, 0, 0⟩ (fun _ => readyEnv) 0 7 =
      ⟨⟨fun _ => 0, 0, 0, 0, 0, 0⟩, [], 7⟩ ∧
    (apply_gen9_fixes_store ⟨fun _ => 0, 0, 0, 0, 0, 0⟩ (fun _ => readyEnv) 1 7).writes.map
      (fun w => (w.1, w.2.1)) = gen9_fixes_writes := by
  exact ⟨(claim_C1_amended ⟨fun _ => 0, 0, 0, 0, 0, 0⟩ (fun _ => readyEnv) 0 7).1 rfl,
    ((claim_C1_amended ⟨fun _ => 0, 0, 0, 0, 0, 0⟩ (fun _ => readyEnv) 1 7).2
      (by omega)).1⟩

/-- C9: device attach performs exactly the three register writes
`(0xD0, 0x69)`, `(0xD3, 0x02)`, `(0xB8, 0x01)` (unconditionally once the
attach path reaches the hardware-fix block), returns 0, and this 3-write
sequence is a subsequence of the 10-write tuning-profile sequence with
identical addresses and values in the same relative order. -/
theorem claim_C9 (regs : Nat → Nat) (envs : Nat → Nat → Nat → Nat) :
    (legion_laptop_probe regs envs).2.1.map (fun w => (w.1, w.2.1)) =
      probe_init_writes ∧
    probe_init_writes = [(0xD0, 0x69), (0xD3, 0x02), (0xB8, 0x01)] ∧
    probe_init_writes.Sublist gen9_fixes_writes ∧
    (legion_laptop_probe regs envs).2.2 = 0 := by
  refine ⟨?_, rfl, by decide, rfl⟩
  simpa [legion_laptop_probe] using runEcWrites_map envs probe_init_writes 0 regs

/-- The four cached snapshot fields besides `performance_mode` agree. -/
def cacheFrame (a b : Sys) : Prop :=
  a.fan1_speed = b.fan1_speed ∧ a.fan2_speed = b.fan2_speed ∧
  a.cpu_temp = b.cpu_temp ∧ a.gpu_temp = b.gpu_temp

/-- All five cached snapshot fields agree. -/
def cacheAll (a b : Sys) : Prop :=
  cacheFrame a b ∧ a.performance_mode = b.performance_mode

theorem cacheAll_refl (sys : Sys) : cacheAll sys sys :=
  ⟨⟨rfl, rfl, rfl, rfl⟩, rfl⟩

theorem cacheAll_setRegs (sys : Sys) (r : Nat → Nat) :
    cacheAll { sys with regs := r } sys :=
  ⟨⟨rfl, rfl, rfl, rfl⟩, rfl⟩

theorem boundedStore_cacheAll (b reg : Nat) (sys : Sys) (env : Nat → Nat → Nat)
    (v count : Nat) :
    cacheAll (boundedStore b reg sys env v count).sys sys := by
  unfold boundedStore
  split
  · exact cacheAll_refl sys
  · dsimp only
    split
    · exact cacheAll_setRegs sys _
    · exact cacheAll_setRegs sys _

theorem tempShow_sys (reg : Nat) (sys : Sys) (env : Nat → Nat → Nat) :
    (tempShow reg sys env).sys = sys := by
  unfold tempShow
  dsimp only
  split <;> rfl

theorem hwmon_sys_eq (sys : Sys) (env : Nat → Nat → Nat)
    (type : HwmonSensorType) (channel : Int) :
    (legion_hwmon_read sys env type channel).sys = sys := by
  cases type
  · unfold legion_hwmon_read
    dsimp only
    repeat' split
    all_goals rfl
  · unfold legion_hwmon_read
    dsimp only
    repeat' split
    all_goals rfl
  · rfl

/-- C10: no operation of the driver's public interface ever modifies the
cached snapshot fields `fan1_speed`, `fan2_speed`, `cpu_temp`, `gpu_temp`;
the only cached field any operation mutates is `performance_mode`, and only
`performance_mode_store` does so — every other store, every show and the
hwmon callback leave the whole cached snapshot unchanged. -/
theorem claim_C10 (sys : Sys) (env : Nat → Nat → Nat)
    (envs : Nat → Nat → Nat → Nat) (buf : String) (v count enable : Nat)
    (type : HwmonSensorType) (channel : Int) :
    cacheFrame (performance_mode_store sys env buf count).sys sys ∧
    cacheAll (fan1_target_store sys env v count).sys sys ∧
    cacheAll (fan2_target_store sys env v count).sys sys ∧
    cacheAll (cpu_pl1_store sys env v count).sys sys ∧
    cacheAll (cpu_pl2_store sys env v count).sys sys ∧
    cacheAll (gpu_tgp_store sys env v count).sys sys ∧
    cacheAll (rgb_mode_store sys env buf count).sys sys ∧
    cacheAll (rgb_brightness_store sys env v count).sys sys ∧
    cacheAll (apply_gen9_fixes_store sys envs enable count).sys sys ∧
    cacheAll (performance_mode_show sys env).sys sys ∧
    cacheAll (fan1_speed_show sys env).sys sys ∧
    cacheAll (fan2_speed_show sys env).sys sys ∧
    cacheAll (cpu_temp_show sys env).sys sys ∧
    cacheAll (gpu_temp_show sys env).sys sys ∧
    cacheAll (gpu_hotspot_show sys env).sys sys ∧
    cacheAll (vrm_temp_show sys env).sys sys ∧
    cacheAll (ssd_temp_show sys env).sys sys ∧
    cacheAll (legion_hwmon_read sys env type channel).sys sys := by
  refine ⟨?_, boundedStore_cacheAll _ _ _ _ _ _, boundedStore_cacheAll _ _ _ _ _ _,
    boundedStore_cacheAll _ _ _ _ _ _, boundedStore_cacheAll _ _ _ _ _ _,
    boundedStore_cacheAll _ _ _ _ _ _, ?_, boundedStore_cacheAll _ _ _ _ _ _,
    ?_, ?_, ?_, ?_, ?_, ?_, ?_, ?_, ?_,
    by rw [hwmon_sys_eq]; exact cacheAll_refl sys⟩
  · unfold performance_mode_store
    cases hp : pmParse buf with
    | none => exact ⟨rfl, rfl, rfl, rfl⟩
    | some m =>
      dsimp only
      split
      · exact ⟨rfl, rfl, rfl, rfl⟩
      · exact ⟨rfl, rfl, rfl, rfl⟩
  · unfold rgb_mode_store
    cases hp : rgbParse buf with
    | none => exact cacheAll_refl sys
    | some m =>
      dsimp only
      split
      · exact cacheAll_setRegs sys _
      · exact cacheAll_setRegs sys _
  · unfold apply_gen9_fixes_store
    split
    · exact cacheAll_setRegs sys _
    · exact cacheAll_refl sys
  · unfold performance_mode_show
    dsimp only
    split
    · exact cacheAll_refl sys
    · exact cacheAll_refl sys
  · unfold fan1_speed_show
    dsimp only
    split
    · exact cacheAll_refl sys
    · exact cacheAll_refl sys
  · unfold fan2_speed_show
    dsimp only
    split
    · exact cacheAll_refl sys
    · exact cacheAll_refl sys
  · rw [cpu_temp_show, tempShow_sys]; exact cacheAll_refl sys
  · rw [gpu_temp_show, tempShow_sys]; exact cacheAll_refl sys
  · rw [gpu_hotspot_show, tempShow_sys]; exact cacheAll_refl sys
  · rw [vrm_temp_show, tempShow_sys]; exact cacheAll_refl sys
  · rw [ssd_temp_show, tempShow_sys]; exact cacheAll_refl sys
